import Mathlib

/-!
Verification development for the High-Scale Energy Ingestion Engine (HSEIE).

The repository ingests telemetry from grid meters and EV chargers, keeps a
current-state row per device plus an append-only history, and answers a
time-correlated 24-hour performance query.  The definitions below are a
shallow embedding of the TypeScript services:

* `AnalyticsService.getPerformance` and `AnalyticsCachedService.getPerformance`
  (SQL join of `vehicle_history` with `meter_history`, aggregation, rounding);
* `VehicleIngestionProcessor.process` / `MeterIngestionProcessor.process`
  (dual write: UPSERT into the current table, INSERT into history, then cache
  invalidation) and `IngestionService.ingestMeterDirect` / `ingestVehicleDirect`;
* `IngestionService.getMeterCurrent` / `getVehicleCurrent` (read-through cache);
* the BullMQ job options configured in `queue.module.ts` and the per-job
  options passed by `IngestionService.ingestMeter` / `ingestVehicle`.

Decimal SQL values and JavaScript numbers are modelled as rationals, and
timestamps as rational epoch seconds.
-/

attribute [local semireducible] Rat.add Rat.mul Rat.inv Rat.sub Rat.ofScientific

/-- Absolute value of a rational, mirroring the SQL `ABS` function used in the
correlation join. -/
def absQ (x : ℚ) : ℚ := if x < 0 then -x else x

/-- JavaScript `Math.round`: round half toward positive infinity,
`Math.round x = floor (x + 0.5)`. -/
def jsRound (x : ℚ) : ℤ := Rat.floor (x + 1/2)

/-- The rounding pattern `Math.round (x * 100) / 100` used by both analytics
services for every returned numeric field: round to two decimal places. -/
def round2 (x : ℚ) : ℚ := (jsRound (x * 100) : ℚ) / 100

/-- One step list of the SQL `REPLACE` scan: fuelled so that the recursion is
structural and kernel-evaluable.  `fuel = l.length` always suffices because
each step consumes at least one character of the subject. -/
def sqlReplaceFuel (pat rep : List Char) : Nat → List Char → List Char
  | 0, l => l
  | _ + 1, [] => []
  | fuel + 1, c :: cs =>
    if pat ≠ [] ∧ pat.isPrefixOf (c :: cs) then
      rep ++ sqlReplaceFuel pat rep fuel ((c :: cs).drop pat.length)
    else
      c :: sqlReplaceFuel pat rep fuel cs

/-- SQL `REPLACE(subject, pat, rep)`: replace every occurrence of `pat` in
`subject` by `rep`, scanning left to right. -/
def sqlReplace (subject pat rep : String) : String :=
  String.mk (sqlReplaceFuel pat.toList rep.toList subject.toList.length subject.toList)

/-- The identifier mapping `REPLACE(v.vehicle_id, 'VEHICLE_', 'METER_')` from
the join predicate of `AnalyticsService.getPerformance`. -/
def mapVehicleToMeterId (vehicleId : String) : String :=
  sqlReplace vehicleId "VEHICLE_" "METER_"

/-- One `meter_history` row (also the value fields of a `meter_current` row):
`meter_id`, `kwh_consumed_ac`, `voltage`, `timestamp`. -/
structure MeterReading where
  meterId : String
  kwhConsumedAc : ℚ
  voltage : ℚ
  timestamp : ℚ
  deriving DecidableEq

/-- One `vehicle_history` row (also the value fields of a `vehicle_current`
row): `vehicle_id`, `soc`, `kwh_delivered_dc`, `battery_temp`, `timestamp`. -/
structure VehicleReading where
  vehicleId : String
  soc : ℚ
  kwhDeliveredDc : ℚ
  batteryTemp : ℚ
  timestamp : ℚ
  deriving DecidableEq

/-- The two history tables scanned by the performance query. -/
structure Database where
  meterHistory : List MeterReading
  vehicleHistory : List VehicleReading
  deriving DecidableEq

/-- Join predicate of `AnalyticsService.getPerformance` (the uncached
service): `(v.vehicle_id = m.meter_id OR m.meter_id =
REPLACE(v.vehicle_id, 'VEHICLE_', 'METER_')) AND
ABS(EXTRACT(EPOCH FROM (v.timestamp - m.timestamp))) <= 30`. -/
def correlatesUncached (v : VehicleReading) (m : MeterReading) : Bool :=
  (v.vehicleId == m.meterId || m.meterId == mapVehicleToMeterId v.vehicleId)
    && decide (absQ (v.timestamp - m.timestamp) ≤ 30)

/-- Join predicate of `AnalyticsCachedService.getPerformance`:
`v.vehicle_id = m.meter_id AND ABS(EXTRACT(EPOCH FROM
(v.timestamp - m.timestamp))) <= 30`. -/
def correlatesCached (v : VehicleReading) (m : MeterReading) : Bool :=
  (v.vehicleId == m.meterId) && decide (absQ (v.timestamp - m.timestamp) ≤ 30)

/-- The `WHERE v.vehicle_id = $1 AND v.timestamp >= $2` filter, with
`$2 = now - 24 * 60 * 60` seconds (`last24Hours`). -/
def vehicleRowInWindow (vehicleId : String) (now : ℚ) (v : VehicleReading) : Bool :=
  v.vehicleId == vehicleId && decide (now - 24 * 60 * 60 ≤ v.timestamp)

/-- The row set produced by the `INNER JOIN` of the performance query: every
qualifying (vehicle row, meter row) pair, for a given join predicate. -/
def joinedPairs (corr : VehicleReading → MeterReading → Bool) (db : Database)
    (vehicleId : String) (now : ℚ) : List (VehicleReading × MeterReading) :=
  (db.vehicleHistory.filter (vehicleRowInWindow vehicleId now)).flatMap fun v =>
    (db.meterHistory.filter (fun m => corr v m)).map fun m => (v, m)

/-- `COUNT(v.id)` of the join result. -/
def readingCount (corr : VehicleReading → MeterReading → Bool) (db : Database)
    (vehicleId : String) (now : ℚ) : Nat :=
  (joinedPairs corr db vehicleId now).length

/-- `SUM(m.kwh_consumed_ac)` over the join result (`total_ac`). -/
def sourceSum (corr : VehicleReading → MeterReading → Bool) (db : Database)
    (vehicleId : String) (now : ℚ) : ℚ :=
  ((joinedPairs corr db vehicleId now).map fun p => p.2.kwhConsumedAc).sum

/-- `SUM(v.kwh_delivered_dc)` over the join result (`total_dc`). -/
def deliveredSum (corr : VehicleReading → MeterReading → Bool) (db : Database)
    (vehicleId : String) (now : ℚ) : ℚ :=
  ((joinedPairs corr db vehicleId now).map fun p => p.1.kwhDeliveredDc).sum

/-- Sum of `v.battery_temp` over the join result (numerator of
`AVG(v.battery_temp)`). -/
def batteryTempSum (corr : VehicleReading → MeterReading → Bool) (db : Database)
    (vehicleId : String) (now : ℚ) : ℚ :=
  ((joinedPairs corr db vehicleId now).map fun p => p.1.batteryTemp).sum

/-- The `PerformanceResponseDto` returned by both analytics services. -/
structure PerformanceResponse where
  vehicleId : String
  period : String
  totalEnergyConsumedAc : ℚ
  totalEnergyDeliveredDc : ℚ
  efficiencyRatio : ℚ
  avgBatteryTemp : ℚ
  deriving DecidableEq

/-- Shared body of both `getPerformance` implementations: `none` when
`reading_count` is zero (the `NotFoundException` branch), otherwise the
rounded aggregates.  `efficiencyRatio` is
`totalAc > 0 ? Math.round((totalDc / totalAc) * 10000) / 100 : 0`, and
`Math.round (x * 10000) / 100 = round2 (x * 100)`. -/
def perfResponse (corr : VehicleReading → MeterReading → Bool) (db : Database)
    (vehicleId : String) (now : ℚ) : Option PerformanceResponse :=
  if readingCount corr db vehicleId now = 0 then none
  else
    some
      { vehicleId := vehicleId
        period := "24h"
        totalEnergyConsumedAc := round2 (sourceSum corr db vehicleId now)
        totalEnergyDeliveredDc := round2 (deliveredSum corr db vehicleId now)
        efficiencyRatio :=
          if 0 < sourceSum corr db vehicleId now then
            round2 (deliveredSum corr db vehicleId now / sourceSum corr db vehicleId now * 100)
          else 0
        avgBatteryTemp :=
          round2 (batteryTempSum corr db vehicleId now /
            (readingCount corr db vehicleId now : ℚ)) }

/-- `AnalyticsService.getPerformance` (uncached service). -/
def getPerformance (db : Database) (vehicleId : String) (now : ℚ) :
    Option PerformanceResponse :=
  perfResponse correlatesUncached db vehicleId now

/-- The database portion of `AnalyticsCachedService.getPerformance`
(what a cold-cache or cache-disabled call computes). -/
def getPerformanceCachedQuery (db : Database) (vehicleId : String) (now : ℚ) :
    Option PerformanceResponse :=
  perfResponse correlatesCached db vehicleId now

/-- Outcome of a performance query as seen by the caller: a response, a
`NotFoundException`, or a rethrown storage error. -/
inductive PerfOutcome where
  | ok (r : PerformanceResponse)
  | notFound
  | fault (e : String)
  deriving DecidableEq

/-- `AnalyticsService.getPerformance` with the storage access made explicit:
a failing query is rethrown as a fault (the `catch` block), an empty join
result raises `NotFoundException`, anything else returns the response. -/
def getPerformanceE (dbOrError : Except String Database) (vehicleId : String)
    (now : ℚ) : PerfOutcome :=
  match dbOrError with
  | .error e => .fault e
  | .ok db =>
    match getPerformance db vehicleId now with
    | none => .notFound
    | some r => .ok r

/-- The SQL `INSERT ... ON CONFLICT (keyColumn) DO UPDATE` issued through the
TypeORM `orUpdate` calls: if a row with the key already exists, all its value
fields are replaced by the incoming row, otherwise the row is inserted. -/
def upsertByKey {α : Type} (key : α → String) (cur : List α) (r : α) : List α :=
  if cur.any (fun x => key x == key r) then
    cur.map (fun x => if key x == key r then r else x)
  else cur ++ [r]

/-- The `meter_current` table plus the `meter_history` table. -/
structure MeterState where
  current : List MeterReading
  history : List MeterReading
  deriving DecidableEq

/-- The `vehicle_current` table plus the `vehicle_history` table. -/
structure VehicleState where
  current : List VehicleReading
  history : List VehicleReading
  deriving DecidableEq

/-- The successful dual write of `MeterIngestionProcessor.process`: UPSERT
keyed by `meter_id` into `meter_current` and INSERT into `meter_history`. -/
def applyMeter (s : MeterState) (r : MeterReading) : MeterState :=
  { current := upsertByKey MeterReading.meterId s.current r
    history := s.history ++ [r] }

/-- The successful dual write of `VehicleIngestionProcessor.process`: UPSERT
keyed by `vehicle_id` into `vehicle_current` and INSERT into
`vehicle_history`. -/
def applyVehicle (s : VehicleState) (r : VehicleReading) : VehicleState :=
  { current := upsertByKey VehicleReading.vehicleId s.current r
    history := s.history ++ [r] }

/-- The dual write of `IngestionService.ingestMeterDirect` (queue disabled):
the same UPSERT into `meter_current` followed by the same INSERT into
`meter_history`. -/
def ingestMeterDirectState (s : MeterState) (r : MeterReading) : MeterState :=
  { current := upsertByKey MeterReading.meterId s.current r
    history := s.history ++ [r] }

/-- The dual write of `IngestionService.ingestVehicleDirect`. -/
def ingestVehicleDirectState (s : VehicleState) (r : VehicleReading) : VehicleState :=
  { current := upsertByKey VehicleReading.vehicleId s.current r
    history := s.history ++ [r] }

/-- What the worker does with a job after processing: return normally (BullMQ
acknowledges and completes the job) or throw (BullMQ hands the job back for
retry). -/
inductive JobOutcome where
  | acked
  | retried
  deriving DecidableEq

/-- Result of one `MeterIngestionProcessor.process` call: resulting tables,
job outcome, and the cache keys deleted. -/
structure MeterProcResult where
  state : MeterState
  outcome : JobOutcome
  invalidated : List String
  deriving DecidableEq

/-- Result of one `VehicleIngestionProcessor.process` call. -/
structure VehicleProcResult where
  state : VehicleState
  outcome : JobOutcome
  invalidated : List String
  deriving DecidableEq

/-- `MeterIngestionProcessor.process`: `Promise.all` of the two writes (either
may have committed even when the other fails), cache invalidation of
`meter:current:<id>` only on full success and only when the cache is enabled,
and a rethrow (retry) when either write fails.  `upsertOk` / `appendOk` model
whether each storage write succeeds. -/
def processMeterJob (useCache upsertOk appendOk : Bool) (s : MeterState)
    (r : MeterReading) : MeterProcResult :=
  if upsertOk && appendOk then
    { state := applyMeter s r
      outcome := .acked
      invalidated := if useCache then ["meter:current:" ++ r.meterId] else [] }
  else
    { state :=
        { current := if upsertOk then upsertByKey MeterReading.meterId s.current r
                     else s.current
          history := if appendOk then s.history ++ [r] else s.history }
      outcome := .retried
      invalidated := [] }

/-- `VehicleIngestionProcessor.process`: as for meters, but on success it
deletes both `vehicle:current:<id>` and `performance:<id>`. -/
def processVehicleJob (useCache upsertOk appendOk : Bool) (s : VehicleState)
    (r : VehicleReading) : VehicleProcResult :=
  if upsertOk && appendOk then
    { state := applyVehicle s r
      outcome := .acked
      invalidated :=
        if useCache then ["vehicle:current:" ++ r.vehicleId, "performance:" ++ r.vehicleId]
        else [] }
  else
    { state :=
        { current := if upsertOk then upsertByKey VehicleReading.vehicleId s.current r
                     else s.current
          history := if appendOk then s.history ++ [r] else s.history }
      outcome := .retried
      invalidated := [] }

/-- Cache keys deleted by `IngestionService.ingestMeterDirect` after its two
writes succeed: only `meter:current:<id>`. -/
def ingestMeterDirectInvalidated (useCache : Bool) (meterId : String) : List String :=
  if useCache then ["meter:current:" ++ meterId] else []

/-- Cache keys deleted by `IngestionService.ingestVehicleDirect` after its two
writes succeed: `vehicle:current:<id>` and `performance:<id>`. -/
def ingestVehicleDirectInvalidated (useCache : Bool) (vehicleId : String) : List String :=
  if useCache then ["vehicle:current:" ++ vehicleId, "performance:" ++ vehicleId] else []

/-- Columns listed in the `orUpdate` clause of `IngestionService.ingestMeterDirect`. -/
def directMeterOrUpdateColumns : List String :=
  ["kwh_consumed_ac", "voltage", "timestamp", "updated_at"]

/-- Columns listed in the `orUpdate` clause of `MeterIngestionProcessor.process`. -/
def processorMeterOrUpdateColumns : List String :=
  ["kwh_consumed_ac", "voltage", "timestamp"]

/-- The JSON body returned to the producer by `IngestionService.ingestMeter`
and `ingestVehicle`: queue mode reports `mode: "queued"` with a `jobId`,
direct mode reports `mode: "direct"` and no job id. -/
structure IngestResponse where
  success : Bool
  deviceId : String
  timestamp : ℚ
  mode : String
  jobId : Option Nat
  deriving DecidableEq

/-- Response of `IngestionService.ingestMeter` as a function of the
`USE_QUEUE` flag (`jobId` is the id BullMQ assigns to the enqueued job). -/
def ingestMeterResponse (useQueue : Bool) (r : MeterReading) (jobId : Nat) :
    IngestResponse :=
  if useQueue then
    { success := true, deviceId := r.meterId, timestamp := r.timestamp
      mode := "queued", jobId := some jobId }
  else
    { success := true, deviceId := r.meterId, timestamp := r.timestamp
      mode := "direct", jobId := none }

/-- Response of `IngestionService.ingestVehicle` as a function of `USE_QUEUE`. -/
def ingestVehicleResponse (useQueue : Bool) (r : VehicleReading) (jobId : Nat) :
    IngestResponse :=
  if useQueue then
    { success := true, deviceId := r.vehicleId, timestamp := r.timestamp
      mode := "queued", jobId := some jobId }
  else
    { success := true, deviceId := r.vehicleId, timestamp := r.timestamp
      mode := "direct", jobId := none }

/-- Cache lookup (`cacheManager.get`): the value stored under a key, if any. -/
def cacheGet {α : Type} (cache : List (String × α)) (key : String) : Option α :=
  (cache.find? (fun p => p.1 == key)).map (fun p => p.2)

/-- Cache store (`cacheManager.set`): bind the key to the value, replacing any
previous binding. -/
def cacheSet {α : Type} (cache : List (String × α)) (key : String) (v : α) :
    List (String × α) :=
  (key, v) :: cache.filter (fun p => !(p.1 == key))

/-- `meterCurrentRepo.findOne({ where: { meterId } })`: point lookup in the
current-state table, `none` when the device has never reported. -/
def dbFindMeter (db : List MeterReading) (meterId : String) : Option MeterReading :=
  db.find? (fun row => row.meterId == meterId)

/-- `vehicleCurrentRepo.findOne({ where: { vehicleId } })`. -/
def dbFindVehicle (db : List VehicleReading) (vehicleId : String) : Option VehicleReading :=
  db.find? (fun row => row.vehicleId == vehicleId)

/-- `IngestionService.getMeterCurrent`: read-through cache under key
`meter:current:<id>`.  On a hit the cached row is returned unchanged; on a
miss the database row is returned and cached only when it was found; with the
cache disabled the database is read directly.  Returns the result together
with the cache contents afterwards. -/
def getMeterCurrent (useCache : Bool) (cache : List (String × MeterReading))
    (db : List MeterReading) (meterId : String) :
    Option MeterReading × List (String × MeterReading) :=
  let key := "meter:current:" ++ meterId
  if useCache then
    match cacheGet cache key with
    | some v => (some v, cache)
    | none =>
      match dbFindMeter db meterId with
      | some row => (some row, cacheSet cache key row)
      | none => (none, cache)
  else (dbFindMeter db meterId, cache)

/-- `IngestionService.getVehicleCurrent`: read-through cache under key
`vehicle:current:<id>`. -/
def getVehicleCurrent (useCache : Bool) (cache : List (String × VehicleReading))
    (db : List VehicleReading) (vehicleId : String) :
    Option VehicleReading × List (String × VehicleReading) :=
  let key := "vehicle:current:" ++ vehicleId
  if useCache then
    match cacheGet cache key with
    | some v => (some v, cache)
    | none =>
      match dbFindVehicle db vehicleId with
      | some row => (some row, cacheSet cache key row)
      | none => (none, cache)
  else (dbFindVehicle db vehicleId, cache)

/-- Removal policy for failed jobs: BullMQ `removeOnFail` is either an age
bound in seconds (`{ age: n }`) or `false` (keep the job indefinitely). -/
inductive FailedRemoval where
  | afterAge (seconds : Nat)
  | keepForever
  deriving DecidableEq

/-- `defaultJobOptions.attempts` from `queue.module.ts`: 3 total attempts. -/
def queueDefaultAttempts : Nat := 3

/-- `defaultJobOptions.backoff.delay` from `queue.module.ts`: 1000 ms base
delay with `type: 'exponential'`. -/
def queueDefaultBackoffDelayMs : Nat := 1000

/-- `defaultJobOptions.removeOnFail` from `queue.module.ts`:
`{ age: 86400 }`, keep failed jobs for 24 hours. -/
def queueDefaultRemoveOnFail : FailedRemoval := .afterAge 86400

/-- The `removeOnFail: false` option passed for every job enqueued by
`IngestionService.ingestMeter` and `ingestVehicle`; per-job options override
the queue defaults, so this is the effective policy for ingestion jobs. -/
def ingestJobRemoveOnFail : FailedRemoval := .keepForever

/-- Modelled from the spec: the retry decision of the durable work queue is
implemented by the external queue library, not by code in this repository.
Per the spec, a failing job is retried while the number of attempts made is
below the configured total (3). -/
def willRetry (attemptsMade : Nat) : Bool :=
  attemptsMade < queueDefaultAttempts

/-- Modelled from the spec: the exponential backoff schedule of the external
queue library, "base delay 1s, doubling each attempt", i.e. the delay before
retry number `n` (1-based) is `1000 * 2 ^ (n - 1)` milliseconds. -/
def retryDelayMs (n : Nat) : Nat :=
  queueDefaultBackoffDelayMs * 2 ^ (n - 1)

/-- Modelled from the spec: whether the external queue library has discarded
a failed job of the given age (in seconds) under a removal policy — an
age-bounded policy discards the job once it is older than the bound, and
`removeOnFail: false` never discards it. -/
def failedJobRemoved (policy : FailedRemoval) (ageSeconds : Nat) : Bool :=
  match policy with
  | .afterAge bound => decide (bound < ageSeconds)
  | .keepForever => false

/-- Every element of a mapped-and-filtered replaced list for a key absent from
the tail: auxiliary fact — replacing the matching element leaves the filter of
the rest empty when keys are unique. -/
theorem filter_map_replace {α : Type} (key : α → String) (r : α) :
    ∀ cur : List α, (cur.map key).Nodup →
      cur.any (fun x => key x == key r) = true →
      (cur.map (fun x => if key x == key r then r else x)).filter
        (fun x => key x == key r) = [r] := by
  intro cur
  induction cur with
  | nil => intro _ h; simp at h
  | cons x xs ih =>
    intro hnd hany
    rw [List.map_cons, List.nodup_cons] at hnd
    by_cases hx : (key x == key r) = true
    · have hxr : key x = key r := eq_of_beq hx
      rw [List.map_cons, if_pos hx, List.filter_cons, if_pos (by simp)]
      have htl : (xs.map (fun x => if key x == key r then r else x)).filter
          (fun x => key x == key r) = [] := by
        rw [List.filter_eq_nil_iff]
        intro a ha
        rw [List.mem_map] at ha
        obtain ⟨y, hy, rfl⟩ := ha
        have hky : key y ≠ key r := by
          intro hcontra
          exact hnd.1 (by rw [hxr, ← hcontra]; exact List.mem_map_of_mem key hy)
        rw [if_neg (by simpa using hky)]
        simpa using hky
      rw [htl]
    · have hany' : xs.any (fun x => key x == key r) = true := by
        simpa [List.any_cons, hx] using hany
      rw [List.map_cons, if_neg hx, List.filter_cons, if_neg (by simpa using hx)]
      exact ih hnd.2 hany'

/-- Filtering an upserted current-state table by the upserted key yields
exactly the incoming row, provided keys were unique beforehand. -/
theorem filter_upsertByKey {α : Type} (key : α → String) (cur : List α) (r : α)
    (hnd : (cur.map key).Nodup) :
    (upsertByKey key cur r).filter (fun x => key x == key r) = [r] := by
  unfold upsertByKey
  by_cases hany : cur.any (fun x => key x == key r) = true
  · rw [if_pos hany]
    exact filter_map_replace key r cur hnd hany
  · rw [if_neg hany, List.filter_append]
    have h1 : cur.filter (fun x => key x == key r) = [] := by
      rw [List.filter_eq_nil_iff]
      intro a ha
      have := List.any_eq_true.not.mp hany
      push_neg at this
      simpa using this a ha
    rw [h1, List.filter_cons, if_pos (by simp)]
    simp

/-- Upsert preserves uniqueness of the keys of the current-state table. -/
theorem nodup_upsertByKey {α : Type} (key : α → String) (cur : List α) (r : α)
    (hnd : (cur.map key).Nodup) :
    ((upsertByKey key cur r).map key).Nodup := by
  unfold upsertByKey
  by_cases hany : cur.any (fun x => key x == key r) = true
  · rw [if_pos hany, List.map_map]
    have : cur.map (key ∘ fun x => if key x == key r then r else x) = cur.map key := by
      apply List.map_congr_left
      intro a _
      by_cases ha : (key a == key r) = true
      · simp only [Function.comp, if_pos ha]
        exact (eq_of_beq ha).symm
      · simp only [Function.comp, if_neg ha]
    rw [this]
    exact hnd
  · rw [if_neg hany, List.map_append]
    rw [List.nodup_append]
    refine ⟨hnd, List.nodup_singleton _, ?_⟩
    intro a ha hb
    simp only [List.map_cons, List.map_nil, List.mem_singleton] at hb
    subst hb
    rw [List.mem_map] at ha
    obtain ⟨y, hy, hky⟩ := ha
    have := List.any_eq_true.not.mp hany
    push_neg at this
    have := this y hy
    simp only [beq_iff_eq] at this
    exact this (by simpa using hky)

/-- The response produced when the join result is nonempty, and the two cases
of its `efficiencyRatio` field, for either join predicate. -/
theorem perfResponse_spec (corr : VehicleReading → MeterReading → Bool)
    (db : Database) (vehicleId : String) (now : ℚ)
    (h : joinedPairs corr db vehicleId now ≠ []) :
    ∃ resp, perfResponse corr db vehicleId now = some resp ∧
      (0 < sourceSum corr db vehicleId now →
        resp.efficiencyRatio =
          round2 (deliveredSum corr db vehicleId now /
            sourceSum corr db vehicleId now * 100)) ∧
      (sourceSum corr db vehicleId now = 0 → resp.efficiencyRatio = 0) := by
  have hc : ¬ readingCount corr db vehicleId now = 0 := by
    simpa [readingCount, List.length_eq_zero] using h
  unfold perfResponse
  rw [if_neg hc]
  refine ⟨_, rfl, ?_, ?_⟩
  · intro hpos
    simp [if_pos hpos]
  · intro hz
    simp [hz]

/-- The performance query reports no data exactly when the join result is
empty. -/
theorem perfResponse_none_iff (corr : VehicleReading → MeterReading → Bool)
    (db : Database) (vehicleId : String) (now : ℚ) :
    perfResponse corr db vehicleId now = none ↔
      joinedPairs corr db vehicleId now = [] := by
  unfold perfResponse
  constructor
  · intro h
    by_cases hc : readingCount corr db vehicleId now = 0
    · simpa [readingCount, List.length_eq_zero] using hc
    · rw [if_neg hc] at h
      cases h
  · intro h
    rw [if_pos (by simp [readingCount, h])]

/-- Concrete database: one meter row and one vehicle row for device `DEV_1`,
5 seconds apart. -/
def dbPerfExample : Database :=
  { meterHistory := [{ meterId := "DEV_1", kwhConsumedAc := 10, voltage := 230, timestamp := 100 }]
    vehicleHistory :=
      [{ vehicleId := "DEV_1", soc := 80, kwhDeliveredDc := 9, batteryTemp := 28, timestamp := 105 }] }

/-- Concrete database: device `DEV_2` has a vehicle row in the window but its
only meter row is 400 seconds away, so nothing correlates. -/
def dbNoCorrelation : Database :=
  { meterHistory := [{ meterId := "DEV_2", kwhConsumedAc := 10, voltage := 230, timestamp := 100 }]
    vehicleHistory :=
      [{ vehicleId := "DEV_2", soc := 80, kwhDeliveredDc := 9, batteryTemp := 28, timestamp := 500 }] }

/-- C1: for every device with at least one correlated meter/vehicle pair in
the trailing 24 h window, both analytics services return `efficiencyRatio`
equal to `round(deliveredSum / sourceSum * 100, 2)` when the source sum is
positive, and `0` (not a division fault) when the source sum is zero. -/
theorem performance_efficiency_ratio (db : Database) (vehicleId : String) (now : ℚ)
    (hU : joinedPairs correlatesUncached db vehicleId now ≠ [])
    (hC : joinedPairs correlatesCached db vehicleId now ≠ []) :
    (∃ resp, getPerformance db vehicleId now = some resp ∧
      (0 < sourceSum correlatesUncached db vehicleId now →
        resp.efficiencyRatio =
          round2 (deliveredSum correlatesUncached db vehicleId now /
            sourceSum correlatesUncached db vehicleId now * 100)) ∧
      (sourceSum correlatesUncached db vehicleId now = 0 → resp.efficiencyRatio = 0)) ∧
    (∃ resp, getPerformanceCachedQuery db vehicleId now = some resp ∧
      (0 < sourceSum correlatesCached db vehicleId now →
        resp.efficiencyRatio =
          round2 (deliveredSum correlatesCached db vehicleId now /
            sourceSum correlatesCached db vehicleId now * 100)) ∧
      (sourceSum correlatesCached db vehicleId now = 0 → resp.efficiencyRatio = 0)) :=
  ⟨perfResponse_spec correlatesUncached db vehicleId now hU,
   perfResponse_spec correlatesCached db vehicleId now hC⟩

/-- C1 witness: the concrete device `DEV_1` at `now = 1000` has a correlated
pair under both join predicates, so the theorem applies. -/
theorem performance_efficiency_ratio_witness :
    joinedPairs correlatesUncached dbPerfExample "DEV_1" 1000 ≠ [] ∧
    joinedPairs correlatesCached dbPerfExample "DEV_1" 1000 ≠ [] ∧
    ((∃ resp, getPerformance dbPerfExample "DEV_1" 1000 = some resp ∧
      (0 < sourceSum correlatesUncached dbPerfExample "DEV_1" 1000 →
        resp.efficiencyRatio =
          round2 (deliveredSum correlatesUncached dbPerfExample "DEV_1" 1000 /
            sourceSum correlatesUncached dbPerfExample "DEV_1" 1000 * 100)) ∧
      (sourceSum correlatesUncached dbPerfExample "DEV_1" 1000 = 0 →
        resp.efficiencyRatio = 0)) ∧
    (∃ resp, getPerformanceCachedQuery dbPerfExample "DEV_1" 1000 = some resp ∧
      (0 < sourceSum correlatesCached dbPerfExample "DEV_1" 1000 →
        resp.efficiencyRatio =
          round2 (deliveredSum correlatesCached dbPerfExample "DEV_1" 1000 /
            sourceSum correlatesCached dbPerfExample "DEV_1" 1000 * 100)) ∧
      (sourceSum correlatesCached dbPerfExample "DEV_1" 1000 = 0 →
        resp.efficiencyRatio = 0))) :=
  ⟨by decide, by decide,
   performance_efficiency_ratio dbPerfExample "DEV_1" 1000 (by decide) (by decide)⟩

/-- C2 counterexample: under the join predicate of the uncached
`AnalyticsService` a vehicle row with id `VEHICLE_001` correlates with a
meter row with the different id `METER_001` (at equal timestamps), because
the join also accepts `m.meter_id = REPLACE(v.vehicle_id, 'VEHICLE_',
'METER_')`.  So "identifier equality, no other mapping" is false. -/
theorem join_identifier_equality_counterexample :
    correlatesUncached
        { vehicleId := "VEHICLE_001", soc := 80, kwhDeliveredDc := 9,
          batteryTemp := 28, timestamp := 100 }
        { meterId := "METER_001", kwhConsumedAc := 10, voltage := 230,
          timestamp := 100 } = true ∧
    ("VEHICLE_001" : String) ≠ "METER_001" :=
  ⟨by decide, by decide⟩

/-- C2 (amended): a vehicle row and a meter row correlate in the uncached
service iff their ids are equal or the meter id equals the vehicle id with
prefix `VEHICLE_` replaced by `METER_`, and the timestamps differ by at most
30 seconds; the cached service requires identifier equality only.  In both,
a pair exactly 30.0 s apart correlates and a pair 30.01 s apart does not. -/
theorem join_predicate_characterization (v : VehicleReading) (m : MeterReading) :
    (correlatesUncached v m = true ↔
      ((v.vehicleId = m.meterId ∨ m.meterId = mapVehicleToMeterId v.vehicleId) ∧
        absQ (v.timestamp - m.timestamp) ≤ 30)) ∧
    (correlatesCached v m = true ↔
      (v.vehicleId = m.meterId ∧ absQ (v.timestamp - m.timestamp) ≤ 30)) ∧
    (correlatesUncached
      { vehicleId := "D", soc := 0, kwhDeliveredDc := 0, batteryTemp := 0, timestamp := 30 }
      { meterId := "D", kwhConsumedAc := 0, voltage := 0, timestamp := 0 } = true) ∧
    (correlatesUncached
      { vehicleId := "D", soc := 0, kwhDeliveredDc := 0, batteryTemp := 0,
        timestamp := 3001/100 }
      { meterId := "D", kwhConsumedAc := 0, voltage := 0, timestamp := 0 } = false) ∧
    (correlatesCached
      { vehicleId := "D", soc := 0, kwhDeliveredDc := 0, batteryTemp := 0, timestamp := 30 }
      { meterId := "D", kwhConsumedAc := 0, voltage := 0, timestamp := 0 } = true) ∧
    (correlatesCached
      { vehicleId := "D", soc := 0, kwhDeliveredDc := 0, batteryTemp := 0,
        timestamp := 3001/100 }
      { meterId := "D", kwhConsumedAc := 0, voltage := 0, timestamp := 0 } = false) := by
  refine ⟨?_, ?_, by decide, by decide, by decide, by decide⟩
  · simp [correlatesUncached]
  · simp [correlatesCached]

/-- C3: both the uncached service and (on a database query) the cached one
report `NotFound` exactly when zero correlated rows match within the trailing
window; a storage error is reported as a distinct fault, never as `NotFound`;
an unknown device (`DEV_9`, never reported) and a known device with no
correlated data (`DEV_2`) both yield `NotFound`. -/
theorem performance_not_found_iff_no_pairs (db : Database) (vehicleId : String)
    (now : ℚ) (e : String) :
    (getPerformanceE (.ok db) vehicleId now = .notFound ↔
      joinedPairs correlatesUncached db vehicleId now = []) ∧
    (getPerformanceCachedQuery db vehicleId now = none ↔
      joinedPairs correlatesCached db vehicleId now = []) ∧
    (getPerformanceE (.error e) vehicleId now = .fault e) ∧
    (PerfOutcome.fault e ≠ PerfOutcome.notFound) ∧
    (getPerformanceE (.ok dbPerfExample) "DEV_9" 1000 = .notFound) ∧
    (getPerformanceE (.ok dbNoCorrelation) "DEV_2" 1000 = .notFound) := by
  refine ⟨?_, perfResponse_none_iff correlatesCached db vehicleId now, rfl,
    by simp, by decide, by decide⟩
  constructor
  · intro h
    by_contra hne
    obtain ⟨resp, hresp, -, -⟩ := perfResponse_spec correlatesUncached db vehicleId now hne
    simp [getPerformanceE, getPerformance, hresp] at h
  · intro h
    have hnone := (perfResponse_none_iff correlatesUncached db vehicleId now).mpr h
    simp [getPerformanceE, getPerformance, hnone]

/-- C4: applying the same valid record twice (retry simulation) leaves the
current-state table with exactly one row for that device, holding the
most-recently-applied values, and grows the history table by exactly 2 rows
(the duplicate history row is not deduplicated) — for meter records and for
vehicle records alike. -/
theorem duplicate_apply_current_history (sm : MeterState) (rm : MeterReading)
    (sv : VehicleState) (rv : VehicleReading)
    (hm : (sm.current.map MeterReading.meterId).Nodup)
    (hv : (sv.current.map VehicleReading.vehicleId).Nodup) :
    ((applyMeter (applyMeter sm rm) rm).current.filter
        (fun x => x.meterId == rm.meterId) = [rm] ∧
      (applyMeter (applyMeter sm rm) rm).history.length = sm.history.length + 2) ∧
    ((applyVehicle (applyVehicle sv rv) rv).current.filter
        (fun x => x.vehicleId == rv.vehicleId) = [rv] ∧
      (applyVehicle (applyVehicle sv rv) rv).history.length = sv.history.length + 2) := by
  refine ⟨⟨?_, ?_⟩, ⟨?_, ?_⟩⟩
  · exact filter_upsertByKey MeterReading.meterId _ rm
      (nodup_upsertByKey MeterReading.meterId sm.current rm hm)
  · simp [applyMeter]
  · exact filter_upsertByKey VehicleReading.vehicleId _ rv
      (nodup_upsertByKey VehicleReading.vehicleId sv.current rv hv)
  · simp [applyVehicle]

/-- C4 witness: the theorem applied to initially empty tables and a concrete
meter record and vehicle record. -/
theorem duplicate_apply_current_history_witness :
    ((applyMeter (applyMeter ⟨[], []⟩
        { meterId := "M1", kwhConsumedAc := 10, voltage := 230, timestamp := 100 })
        { meterId := "M1", kwhConsumedAc := 10, voltage := 230, timestamp := 100 }).current.filter
        (fun x => x.meterId == "M1") =
        [{ meterId := "M1", kwhConsumedAc := 10, voltage := 230, timestamp := 100 }] ∧
      (applyMeter (applyMeter ⟨[], []⟩
        { meterId := "M1", kwhConsumedAc := 10, voltage := 230, timestamp := 100 })
        { meterId := "M1", kwhConsumedAc := 10, voltage := 230, timestamp := 100 }).history.length =
        List.length ([] : List MeterReading) + 2) ∧
    ((applyVehicle (applyVehicle ⟨[], []⟩
        { vehicleId := "V1", soc := 80, kwhDeliveredDc := 9, batteryTemp := 28, timestamp := 100 })
        { vehicleId := "V1", soc := 80, kwhDeliveredDc := 9, batteryTemp := 28, timestamp := 100 }).current.filter
        (fun x => x.vehicleId == "V1") =
        [{ vehicleId := "V1", soc := 80, kwhDeliveredDc := 9, batteryTemp := 28, timestamp := 100 }] ∧
      (applyVehicle (applyVehicle ⟨[], []⟩
        { vehicleId := "V1", soc := 80, kwhDeliveredDc := 9, batteryTemp := 28, timestamp := 100 })
        { vehicleId := "V1", soc := 80, kwhDeliveredDc := 9, batteryTemp := 28, timestamp := 100 }).history.length =
        List.length ([] : List VehicleReading) + 2) :=
  duplicate_apply_current_history ⟨[], []⟩
    { meterId := "M1", kwhConsumedAc := 10, voltage := 230, timestamp := 100 }
    ⟨[], []⟩
    { vehicleId := "V1", soc := 80, kwhDeliveredDc := 9, batteryTemp := 28, timestamp := 100 }
    (by decide) (by decide)

/-- C5: a dual-write job is acknowledged iff both the current-state upsert and
the history append succeed, and it is handed back for retry iff at least one
of them fails — for the meter processor and the vehicle processor alike, with
or without the cache. -/
theorem dual_write_all_or_nothing (useCache upsertOk appendOk : Bool)
    (sm : MeterState) (rm : MeterReading) (sv : VehicleState) (rv : VehicleReading) :
    ((processMeterJob useCache upsertOk appendOk sm rm).outcome = .acked ↔
      (upsertOk = true ∧ appendOk = true)) ∧
    ((processMeterJob useCache upsertOk appendOk sm rm).outcome = .retried ↔
      (upsertOk = false ∨ appendOk = false)) ∧
    ((processVehicleJob useCache upsertOk appendOk sv rv).outcome = .acked ↔
      (upsertOk = true ∧ appendOk = true)) ∧
    ((processVehicleJob useCache upsertOk appendOk sv rv).outcome = .retried ↔
      (upsertOk = false ∨ appendOk = false)) := by
  cases upsertOk <;> cases appendOk <;>
    simp [processMeterJob, processVehicleJob]

/-- The key `performance:<id>` is never the key `meter:current:<id>`. -/
theorem performance_key_ne_meter_current_key (id : String) :
    ("performance:" ++ id) ≠ ("meter:current:" ++ id) := by
  intro h
  have hlen := congrArg String.length h
  have h1 : "performance:".length = 12 := by decide
  have h2 : "meter:current:".length = 14 := by decide
  simp [String.length_append, h1, h2] at hlen

/-- C6 counterexample: a successful meter apply (processor path, cache
enabled) invalidates only `meter:current:M1`; the cached performance result
`performance:M1` for the same device id is not invalidated.  The direct
ingest path behaves the same way.  So the claim fails for meter records. -/
theorem meter_cache_invalidation_counterexample :
    (processMeterJob true true true ⟨[], []⟩
      { meterId := "M1", kwhConsumedAc := 10, voltage := 230, timestamp := 100 }).invalidated =
      ["meter:current:M1"] ∧
    "performance:M1" ∉ (processMeterJob true true true ⟨[], []⟩
      { meterId := "M1", kwhConsumedAc := 10, voltage := 230, timestamp := 100 }).invalidated ∧
    ingestMeterDirectInvalidated true "M1" = ["meter:current:M1"] ∧
    "performance:M1" ∉ ingestMeterDirectInvalidated true "M1" :=
  ⟨by decide, by decide, by decide, by decide⟩

/-- C6 (amended): after a successful dual write with the cache enabled, a
vehicle record invalidates both its cached current state and its cached
performance result, but a meter record invalidates only its cached current
state — the performance key for its device id is not invalidated, on the
worker path and on the direct path alike. -/
theorem cache_invalidation_keys (id : String) (sm : MeterState) (rm : MeterReading)
    (sv : VehicleState) (rv : VehicleReading)
    (hm : rm.meterId = id) (hv : rv.vehicleId = id) :
    (processVehicleJob true true true sv rv).invalidated =
      ["vehicle:current:" ++ id, "performance:" ++ id] ∧
    ingestVehicleDirectInvalidated true id =
      ["vehicle:current:" ++ id, "performance:" ++ id] ∧
    (processMeterJob true true true sm rm).invalidated = ["meter:current:" ++ id] ∧
    ingestMeterDirectInvalidated true id = ["meter:current:" ++ id] ∧
    ("performance:" ++ id) ∉ (processMeterJob true true true sm rm).invalidated ∧
    ("performance:" ++ id) ∉ ingestMeterDirectInvalidated true id := by
  have hne := performance_key_ne_meter_current_key id
  refine ⟨by simp [processVehicleJob, hv], rfl,
    by simp [processMeterJob, hm], rfl, ?_, ?_⟩
  · simp [processMeterJob, hm, hne]
  · simp [ingestMeterDirectInvalidated, hne]

/-- C6 witness: the theorem applied to device id `M1` with concrete records
and empty tables. -/
theorem cache_invalidation_keys_witness :
    (processVehicleJob true true true ⟨[], []⟩
      { vehicleId := "M1", soc := 80, kwhDeliveredDc := 9, batteryTemp := 28,
        timestamp := 100 }).invalidated =
      ["vehicle:current:" ++ "M1", "performance:" ++ "M1"] ∧
    ingestVehicleDirectInvalidated true "M1" =
      ["vehicle:current:" ++ "M1", "performance:" ++ "M1"] ∧
    (processMeterJob true true true ⟨[], []⟩
      { meterId := "M1", kwhConsumedAc := 10, voltage := 230, timestamp := 100 }).invalidated =
      ["meter:current:" ++ "M1"] ∧
    ingestMeterDirectInvalidated true "M1" = ["meter:current:" ++ "M1"] ∧
    ("performance:" ++ "M1") ∉ (processMeterJob true true true ⟨[], []⟩
      { meterId := "M1", kwhConsumedAc := 10, voltage := 230, timestamp := 100 }).invalidated ∧
    ("performance:" ++ "M1") ∉ ingestMeterDirectInvalidated true "M1" :=
  cache_invalidation_keys "M1" ⟨[], []⟩
    { meterId := "M1", kwhConsumedAc := 10, voltage := 230, timestamp := 100 }
    ⟨[], []⟩
    { vehicleId := "M1", soc := 80, kwhDeliveredDc := 9, batteryTemp := 28, timestamp := 100 }
    (by decide) (by decide)

/-- C7 counterexample: every job enqueued by the ingestion service carries
`removeOnFail: false`, so once it lands in the failed set it is never
discarded — in particular it is still retained at age 90000 s, past the
claimed 24-hour (86400 s) observation window after which it should have been
discarded. -/
theorem failed_job_retention_counterexample :
    ingestJobRemoveOnFail = FailedRemoval.keepForever ∧
    failedJobRemoved ingestJobRemoveOnFail 90000 = false ∧
    failedJobRemoved queueDefaultRemoveOnFail 90000 = true :=
  ⟨rfl, rfl, by decide⟩

/-- C7 (amended): a failing job is retried up to 3 total attempts with
exponential backoff of base delay 1000 ms doubling per retry (1 s, 2 s for
the two retries actually possible; the schedule value for a third retry would
be 4 s); after exhaustion it moves to the failed set.  Under the queue-level
default, failed jobs are discarded exactly when older than 86400 s (24 h) and
never before; but ingestion jobs override this with `removeOnFail: false` and
are never discarded at any age. -/
theorem retry_policy_characterization :
    queueDefaultAttempts = 3 ∧
    (∀ n, willRetry n = true ↔ n < 3) ∧
    retryDelayMs 1 = 1000 ∧
    retryDelayMs 2 = 2000 ∧
    retryDelayMs 3 = 4000 ∧
    (∀ age, failedJobRemoved queueDefaultRemoveOnFail age = true ↔ 86400 < age) ∧
    (∀ age, failedJobRemoved ingestJobRemoveOnFail age = false) := by
  refine ⟨rfl, ?_, rfl, rfl, rfl, ?_, fun age => rfl⟩
  · intro n
    simp [willRetry, queueDefaultAttempts]
  · intro age
    simp [failedJobRemoved, queueDefaultRemoveOnFail]

/-- Concrete database whose ids follow the `VEHICLE_`/`METER_` prefix
convention of the simulator and the sample data. -/
def dbPrefixMapped : Database :=
  { meterHistory := [{ meterId := "METER_001", kwhConsumedAc := 10, voltage := 230, timestamp := 100 }]
    vehicleHistory :=
      [{ vehicleId := "VEHICLE_001", soc := 80, kwhDeliveredDc := 9, batteryTemp := 28, timestamp := 100 }] }

/-- C8 counterexample: results are not identical across the flags.  (1) The
ingest acknowledgment differs between queue mode and direct mode (`mode:
"queued"` with a job id versus `mode: "direct"`); (2) the direct path lists
`updated_at` in its conflict-update columns while the worker path does not;
(3) with prefix-mapped ids the performance read differs between the service
used when the cache flag is on (`AnalyticsCachedService`, equality join) and
the one used when it is off (`AnalyticsService`, which also accepts the
`REPLACE` mapping), even on a cold cache. -/
theorem flag_equivalence_counterexample :
    ingestMeterResponse true
        { meterId := "M1", kwhConsumedAc := 10, voltage := 230, timestamp := 100 } 1 ≠
      ingestMeterResponse false
        { meterId := "M1", kwhConsumedAc := 10, voltage := 230, timestamp := 100 } 1 ∧
    (ingestMeterResponse true
        { meterId := "M1", kwhConsumedAc := 10, voltage := 230, timestamp := 100 } 1).mode ≠
      (ingestMeterResponse false
        { meterId := "M1", kwhConsumedAc := 10, voltage := 230, timestamp := 100 } 1).mode ∧
    directMeterOrUpdateColumns ≠ processorMeterOrUpdateColumns ∧
    getPerformance dbPrefixMapped "VEHICLE_001" 1000 ≠
      getPerformanceCachedQuery dbPrefixMapped "VEHICLE_001" 1000 :=
  ⟨by decide, by decide, by decide, by decide⟩

/-- C8 (amended): the persisted current-state and history rows written by a
successful apply agree between the worker path and the direct path (for both
device classes, with the cache flag in either position), the ingest
acknowledgment agrees on success, device id and timestamp (only its
`mode`/`jobId` metadata differs), and a current-state read returns the same
row with the cache enabled on a cold cache as with the cache disabled. -/
theorem flag_equivalence_amended (useCache : Bool) (sm : MeterState)
    (rm : MeterReading) (sv : VehicleState) (rv : VehicleReading) (j : Nat) :
    (processMeterJob useCache true true sm rm).state = ingestMeterDirectState sm rm ∧
    (processVehicleJob useCache true true sv rv).state = ingestVehicleDirectState sv rv ∧
    (ingestMeterResponse true rm j).success = (ingestMeterResponse false rm j).success ∧
    (ingestMeterResponse true rm j).deviceId = (ingestMeterResponse false rm j).deviceId ∧
    (ingestMeterResponse true rm j).timestamp = (ingestMeterResponse false rm j).timestamp ∧
    (ingestVehicleResponse true rv j).success = (ingestVehicleResponse false rv j).success ∧
    (ingestVehicleResponse true rv j).deviceId = (ingestVehicleResponse false rv j).deviceId ∧
    (ingestVehicleResponse true rv j).timestamp = (ingestVehicleResponse false rv j).timestamp ∧
    (∀ (cache : List (String × MeterReading)) (db : List MeterReading) (id : String),
      cacheGet cache ("meter:current:" ++ id) = none →
        (getMeterCurrent true cache db id).1 = (getMeterCurrent false cache db id).1) ∧
    (∀ (cache : List (String × VehicleReading)) (db : List VehicleReading) (id : String),
      cacheGet cache ("vehicle:current:" ++ id) = none →
        (getVehicleCurrent true cache db id).1 = (getVehicleCurrent false cache db id).1) := by
  refine ⟨by simp [processMeterJob, ingestMeterDirectState, applyMeter],
    by simp [processVehicleJob, ingestVehicleDirectState, applyVehicle],
    rfl, rfl, rfl, rfl, rfl, rfl, ?_, ?_⟩
  · intro cache db id h
    rcases hdb : dbFindMeter db id with _ | row <;> simp [getMeterCurrent, h, hdb]
  · intro cache db id h
    rcases hdb : dbFindVehicle db id with _ | row <;> simp [getVehicleCurrent, h, hdb]

/-- C9: the current-state upsert overwrites unconditionally — a record whose
timestamp is older than the stored row timestamp still fully replaces the
row value fields; no apply path guards on monotonic timestamps. -/
theorem stale_timestamp_overwrites (sm : MeterState) (rm rOld : MeterReading)
    (sv : VehicleState) (rv rvOld : VehicleReading)
    (hm : (sm.current.map MeterReading.meterId).Nodup)
    (_hmemM : rOld ∈ sm.current) (_hkeyM : rOld.meterId = rm.meterId)
    (_htM : rm.timestamp < rOld.timestamp)
    (hv : (sv.current.map VehicleReading.vehicleId).Nodup)
    (_hmemV : rvOld ∈ sv.current) (_hkeyV : rvOld.vehicleId = rv.vehicleId)
    (_htV : rv.timestamp < rvOld.timestamp) :
    (applyMeter sm rm).current.filter (fun x => x.meterId == rm.meterId) = [rm] ∧
    (ingestMeterDirectState sm rm).current.filter (fun x => x.meterId == rm.meterId) = [rm] ∧
    (applyVehicle sv rv).current.filter (fun x => x.vehicleId == rv.vehicleId) = [rv] ∧
    (ingestVehicleDirectState sv rv).current.filter
      (fun x => x.vehicleId == rv.vehicleId) = [rv] :=
  ⟨filter_upsertByKey MeterReading.meterId sm.current rm hm,
   filter_upsertByKey MeterReading.meterId sm.current rm hm,
   filter_upsertByKey VehicleReading.vehicleId sv.current rv hv,
   filter_upsertByKey VehicleReading.vehicleId sv.current rv hv⟩

/-- C9 witness: stored rows at timestamp 200, incoming records at the older
timestamp 100 — the incoming records still replace the stored rows. -/
theorem stale_timestamp_overwrites_witness :
    (applyMeter ⟨[{ meterId := "M1", kwhConsumedAc := 5, voltage := 220, timestamp := 200 }], []⟩
      { meterId := "M1", kwhConsumedAc := 10, voltage := 230, timestamp := 100 }).current.filter
      (fun x => x.meterId == "M1") =
      [{ meterId := "M1", kwhConsumedAc := 10, voltage := 230, timestamp := 100 }] ∧
    (ingestMeterDirectState
      ⟨[{ meterId := "M1", kwhConsumedAc := 5, voltage := 220, timestamp := 200 }], []⟩
      { meterId := "M1", kwhConsumedAc := 10, voltage := 230, timestamp := 100 }).current.filter
      (fun x => x.meterId == "M1") =
      [{ meterId := "M1", kwhConsumedAc := 10, voltage := 230, timestamp := 100 }] ∧
    (applyVehicle
      ⟨[{ vehicleId := "V1", soc := 70, kwhDeliveredDc := 5, batteryTemp := 25, timestamp := 200 }], []⟩
      { vehicleId := "V1", soc := 80, kwhDeliveredDc := 9, batteryTemp := 28,
        timestamp := 100 }).current.filter (fun x => x.vehicleId == "V1") =
      [{ vehicleId := "V1", soc := 80, kwhDeliveredDc := 9, batteryTemp := 28, timestamp := 100 }] ∧
    (ingestVehicleDirectState
      ⟨[{ vehicleId := "V1", soc := 70, kwhDeliveredDc := 5, batteryTemp := 25, timestamp := 200 }], []⟩
      { vehicleId := "V1", soc := 80, kwhDeliveredDc := 9, batteryTemp := 28,
        timestamp := 100 }).current.filter (fun x => x.vehicleId == "V1") =
      [{ vehicleId := "V1", soc := 80, kwhDeliveredDc := 9, batteryTemp := 28, timestamp := 100 }] :=
  stale_timestamp_overwrites
    ⟨[{ meterId := "M1", kwhConsumedAc := 5, voltage := 220, timestamp := 200 }], []⟩
    { meterId := "M1", kwhConsumedAc := 10, voltage := 230, timestamp := 100 }
    { meterId := "M1", kwhConsumedAc := 5, voltage := 220, timestamp := 200 }
    ⟨[{ vehicleId := "V1", soc := 70, kwhDeliveredDc := 5, batteryTemp := 25, timestamp := 200 }], []⟩
    { vehicleId := "V1", soc := 80, kwhDeliveredDc := 9, batteryTemp := 28, timestamp := 100 }
    { vehicleId := "V1", soc := 70, kwhDeliveredDc := 5, batteryTemp := 25, timestamp := 200 }
    (by decide) (by decide) (by decide) (by decide)
    (by decide) (by decide) (by decide) (by decide)

/-- C10: a current-state lookup for a device that has never reported returns
`none` (not an error) and leaves the cache unchanged, and an absent result is
never stored in the cache — only found rows are cached — so a lookup for an
unknown device reflects the database even with the cache enabled. -/
theorem current_lookup_absent_behavior (useCache : Bool)
    (cacheM : List (String × MeterReading)) (dbM : List MeterReading)
    (cacheV : List (String × VehicleReading)) (dbV : List VehicleReading)
    (id : String) :
    (dbFindMeter dbM id = none → cacheGet cacheM ("meter:current:" ++ id) = none →
      (getMeterCurrent useCache cacheM dbM id).1 = none ∧
      (getMeterCurrent useCache cacheM dbM id).2 = cacheM) ∧
    ((getMeterCurrent useCache cacheM dbM id).1 = none →
      (getMeterCurrent useCache cacheM dbM id).2 = cacheM) ∧
    (dbFindVehicle dbV id = none → cacheGet cacheV ("vehicle:current:" ++ id) = none →
      (getVehicleCurrent useCache cacheV dbV id).1 = none ∧
      (getVehicleCurrent useCache cacheV dbV id).2 = cacheV) ∧
    ((getVehicleCurrent useCache cacheV dbV id).1 = none →
      (getVehicleCurrent useCache cacheV dbV id).2 = cacheV) := by
  refine ⟨?_, ?_, ?_, ?_⟩
  · intro hdb hc
    cases useCache <;> simp [getMeterCurrent, hdb, hc]
  · intro h
    cases useCache
    · simp [getMeterCurrent]
    · rcases hc : cacheGet cacheM ("meter:current:" ++ id) with _ | v
      · rcases hdb : dbFindMeter dbM id with _ | row
        · simp [getMeterCurrent, hc, hdb]
        · exact absurd h (by simp [getMeterCurrent, hc, hdb])
      · exact absurd h (by simp [getMeterCurrent, hc])
  · intro hdb hc
    cases useCache <;> simp [getVehicleCurrent, hdb, hc]
  · intro h
    cases useCache
    · simp [getVehicleCurrent]
    · rcases hc : cacheGet cacheV ("vehicle:current:" ++ id) with _ | v
      · rcases hdb : dbFindVehicle dbV id with _ | row
        · simp [getVehicleCurrent, hc, hdb]
        · exact absurd h (by simp [getVehicleCurrent, hc, hdb])
      · exact absurd h (by simp [getVehicleCurrent, hc])
